import Mathlib

/-!
Verification model of the retrieval engine: the two vector-store backends
(OpenSearchStore, the hybrid lexical+vector backend, and QdrantStore, the
dense-only backend) and the RAGEngine orchestrator. External services
(the embedding provider, the lexical scorer and the vector-similarity
scorer of the store, and the generation provider) enter as function
parameters; the query construction, filtering, result assembly and error
handling are translated from the source.
-/

set_option autoImplicit false

namespace Rag

/-- Open key-value map (Python dict with string keys), as an association list. -/
abbrev Metadata := List (String × String)

/-- First-match lookup, the value semantics of Python dict access. -/
def mlookup (k : String) : Metadata → Option String
  | [] => none
  | kv :: rest => if kv.1 = k then some kv.2 else mlookup k rest

/-- Dict update: binds the key, shadowing any previous binding. -/
def minsert (k v : String) (m : Metadata) : Metadata :=
  (k, v) :: m.filter (fun kv => kv.1 != k)

/-- Python truthiness of an optional string: None and the empty string are falsy. -/
def optTruthy : Option String → Bool
  | none => false
  | some s => !s.isEmpty

/-- Insert one element into a list sorted by descending key. -/
def insertDescBy {α : Type} (key : α → Rat) (a : α) : List α → List α
  | [] => [a]
  | b :: l => if key b < key a then a :: b :: l else b :: insertDescBy key a l

/-- Sort a list by descending key: how both stores rank hits best-first. -/
def sortDescBy {α : Type} (key : α → Rat) : List α → List α
  | [] => []
  | a :: l => insertDescBy key a (sortDescBy key l)

theorem mem_insertDescBy {α : Type} (key : α → Rat) (a x : α) (l : List α) :
    x ∈ insertDescBy key a l ↔ x = a ∨ x ∈ l := by
  induction l with
  | nil => simp [insertDescBy]
  | cons b l ih =>
    simp only [insertDescBy]
    split
    · simp
    · simp only [List.mem_cons, ih]
      tauto

theorem mem_sortDescBy {α : Type} (key : α → Rat) (x : α) (l : List α) :
    x ∈ sortDescBy key l ↔ x ∈ l := by
  induction l with
  | nil => simp [sortDescBy]
  | cons a l ih => simp [sortDescBy, mem_insertDescBy, ih]

theorem length_insertDescBy {α : Type} (key : α → Rat) (a : α) (l : List α) :
    (insertDescBy key a l).length = l.length + 1 := by
  induction l with
  | nil => simp [insertDescBy]
  | cons b l ih =>
    simp only [insertDescBy]
    split
    · simp
    · simp [ih]

theorem length_sortDescBy {α : Type} (key : α → Rat) (l : List α) :
    (sortDescBy key l).length = l.length := by
  induction l with
  | nil => simp [sortDescBy]
  | cons a l ih => simp [sortDescBy, length_insertDescBy, ih]

theorem take_of_length_le {α : Type} {l : List α} {n : Nat} (h : l.length ≤ n) :
    l.take n = l := by
  induction l generalizing n with
  | nil => simp
  | cons a l ih =>
    cases n with
    | zero => simp at h
    | succ n =>
      simp only [List.take_succ_cons]
      simp only [List.length_cons, Nat.succ_le_succ_iff] at h
      rw [ih h]

theorem mem_of_mem_take {α : Type} {x : α} : ∀ {l : List α} {n : Nat}, x ∈ l.take n → x ∈ l
  | [], _, h => by simp at h
  | _ :: _, 0, h => by simp at h
  | _ :: _, _ + 1, h => by
    simp only [List.take_succ_cons, List.mem_cons] at h
    rcases h with h | h
    · exact h ▸ List.mem_cons_self _ _
    · exact List.mem_cons_of_mem _ (mem_of_mem_take h)

/-! ## External scoring and providers, as oracles

The engine embeds text through the embedding provider and the stores score
hits with their own lexical and vector machinery; these are network
services, so they are inputs of the model. -/

structure Oracles where
  /-- Embedding provider: text to a dense vector. -/
  embed : String → List Rat
  /-- Vector similarity of the store (cosine on the stored space). -/
  cosSim : List Rat → List Rat → Rat
  /-- Lexical match clause score of a query text on a stored text;
  none means the match clause does not select the document. -/
  lexScore : String → String → Option Rat

/-! ## OpenSearch (hybrid) backend -/

/-- A document as indexed by OpenSearchStore.add_document. The user_id
field is stored only when truthy; tags are stored only when nonempty and
read back with default [], so an empty list models an absent field. -/
structure OSDoc where
  id : String
  text : String
  embedding : List Rat
  organization_id : String
  user_id : Option String
  tags : List String
  metadata : Metadata
  created_at : String
  deriving DecidableEq

structure OSQuery where
  query : String
  organization_id : String
  user_id : Option String
  tags : List String
  limit : Nat
  deriving DecidableEq

structure OSResult where
  id : String
  score : Rat
  text : String
  metadata : Metadata
  tags : List String
  deriving DecidableEq

/-- OpenSearchStore.add_document: embed the text, build the document body
with the tenant fields, and index it under a fresh id. -/
def OpenSearchStore.add_document (o : Oracles) (docs : List OSDoc) (newId : String)
    (text : String) (metadata : Metadata) (organization_id : String)
    (user_id : Option String) (tags : List String) (now : String) :
    List OSDoc × String :=
  let d : OSDoc :=
    { id := newId
      text := text
      embedding := o.embed text
      organization_id := organization_id
      user_id := if optTruthy user_id then user_id else none
      tags := tags
      metadata := metadata
      created_at := now }
  (docs ++ [d], newId)

/-- The mandatory filter conditions of OpenSearchStore.search: a term
clause on organization_id, a term clause on user_id when truthy, and a
terms clause on tags when nonempty (a terms query selects documents whose
tags field holds at least one of the requested values). -/
def osFilterPass (q : OSQuery) (d : OSDoc) : Bool :=
  (d.organization_id == q.organization_id)
  && (if optTruthy q.user_id then d.user_id == q.user_id else true)
  && (if q.tags.isEmpty then true else d.tags.any (fun t => q.tags.contains t))

def osQueryVec (o : Oracles) (q : OSQuery) : List Rat := o.embed q.query

/-- ANN similarity of a document against the embedded query. -/
def osVecSim (o : Oracles) (q : OSQuery) (d : OSDoc) : Rat :=
  o.cosSim (osQueryVec o q) d.embedding

/-- The candidate pool of the knn clause: the k nearest stored vectors. -/
def osKnnPool (o : Oracles) (docs : List OSDoc) (q : OSQuery) (k : Nat) : List OSDoc :=
  (sortDescBy (osVecSim o q) docs).take k

def osInPool (pool : List OSDoc) (d : OSDoc) : Bool :=
  pool.any (fun p => p.id == d.id)

/-- The should clauses of the hybrid query with minimum_should_match 1:
a lexical match of the query text, or membership in the knn candidate
pool. Either alone selects the document. -/
def osShould (o : Oracles) (q : OSQuery) (pool : List OSDoc) (d : OSDoc) : Bool :=
  (o.lexScore q.query d.text).isSome || osInPool pool d

/-- Combined relevance score: lexical match score (boost 1.0) plus the
vector similarity contribution for knn candidates. -/
def osScore (o : Oracles) (q : OSQuery) (pool : List OSDoc) (d : OSDoc) : Rat :=
  ((o.lexScore q.query d.text).getD 0) * 1
  + (if osInPool pool d then osVecSim o q d else 0)

/-- Documents matched by the hybrid query body: every must clause and at
least one should clause; the knn pool is sized limit * 2. -/
def osHybridMatched (o : Oracles) (docs : List OSDoc) (q : OSQuery) : List OSDoc :=
  docs.filter (fun d => osFilterPass q d && osShould o q (osKnnPool o docs q (q.limit * 2)) d)

/-- Documents matched by the vector-only query body (use_hybrid false):
every filter in must together with the knn clause, pool sized limit. -/
def osVectorMatched (o : Oracles) (docs : List OSDoc) (q : OSQuery) : List OSDoc :=
  docs.filter (fun d => osFilterPass q d && osInPool (osKnnPool o docs q q.limit) d)

/-- Hit extraction of OpenSearchStore.search: id, score, and the source
fields text, metadata and tags (defaulting to [] when absent). -/
def osHitToResult (d : OSDoc) (score : Rat) : OSResult :=
  { id := d.id, score := score, text := d.text, metadata := d.metadata, tags := d.tags }

/-- OpenSearchStore.search: build the bool query, rank hits best-first by
score, cut at size = limit, and extract the result dicts. -/
def OpenSearchStore.search (o : Oracles) (docs : List OSDoc) (q : OSQuery)
    (useHybrid : Bool) : List OSResult :=
  if useHybrid then
    ((sortDescBy (osScore o q (osKnnPool o docs q (q.limit * 2))) (osHybridMatched o docs q)).take
        q.limit).map
      (fun d => osHitToResult d (osScore o q (osKnnPool o docs q (q.limit * 2)) d))
  else
    ((sortDescBy (osVecSim o q) (osVectorMatched o docs q)).take q.limit).map
      (fun d => osHitToResult d (osVecSim o q d))

/-! ## Qdrant (dense-only) backend -/

/-- A point as upserted by QdrantStore.add_document: id, vector, and a
payload dict merging the metadata with the tenant keys and the text. -/
structure QPoint where
  id : String
  vector : List Rat
  payload : Metadata
  deriving DecidableEq

/-- Payload built by QdrantStore.add_document: the metadata, with
organization_id and text bound on top (shadowing metadata keys of the
same name), and user_id bound only when truthy. -/
def qdrantPayload (text : String) (metadata : Metadata) (organization_id : String)
    (user_id : Option String) : Metadata :=
  let p := minsert "text" text (minsert "organization_id" organization_id metadata)
  if optTruthy user_id then minsert "user_id" (user_id.getD "") p else p

/-- QdrantStore.add_document: embed the text and upsert one point. -/
def QdrantStore.add_document (o : Oracles) (points : List QPoint) (newId : String)
    (text : String) (metadata : Metadata) (organization_id : String)
    (user_id : Option String) : List QPoint × String :=
  (points ++ [{ id := newId
                vector := o.embed text
                payload := qdrantPayload text metadata organization_id user_id }],
   newId)

structure QQuery where
  query : String
  organization_id : String
  user_id : Option String
  limit : Nat
  score_threshold : Rat
  deriving DecidableEq

/-- The must filter of QdrantStore.search: a field condition on the
payload key organization_id, and one on user_id when truthy. -/
def qdrantFilterPass (q : QQuery) (p : QPoint) : Bool :=
  (mlookup "organization_id" p.payload == some q.organization_id)
  && (if optTruthy q.user_id then mlookup "user_id" p.payload == q.user_id else true)

structure QResult where
  id : String
  score : Rat
  text : String
  metadata : Metadata
  deriving DecidableEq

/-- The result mapping of QdrantStore.search: text is surfaced from the
payload, and the metadata is the payload with the keys text,
organization_id and user_id stripped. -/
def stripTenantKeys (m : Metadata) : Metadata :=
  m.filter (fun kv => !(kv.1 == "text" || kv.1 == "organization_id" || kv.1 == "user_id"))

def qdrantPointToResult (score : Rat) (p : QPoint) : QResult :=
  { id := p.id
    score := score
    text := (mlookup "text" p.payload).getD ""
    metadata := stripTenantKeys p.payload }

def qVecSim (o : Oracles) (q : QQuery) (p : QPoint) : Rat :=
  o.cosSim (o.embed q.query) p.vector

/-- Points admitted by query_points: they pass the tenant filter and
their similarity reaches score_threshold (lower scores are excluded
before the limit cutoff). -/
def qdrantPassing (o : Oracles) (points : List QPoint) (q : QQuery) : List QPoint :=
  points.filter (fun p => qdrantFilterPass q p && decide (q.score_threshold ≤ qVecSim o q p))

/-- QdrantStore.search: ANN query with tenant filter and score threshold,
ranked best-first, cut at limit, mapped into result dicts. -/
def QdrantStore.search (o : Oracles) (points : List QPoint) (q : QQuery) : List QResult :=
  ((sortDescBy (qVecSim o q) (qdrantPassing o points q)).take q.limit).map
    (fun p => qdrantPointToResult (qVecSim o q p) p)

/-! ## Deletion, stats and error handling

Client calls can fail (for example the store is unreachable); a call
either raises an error or returns a value, modelled with Except. The
conn flag is the health of the connection during the call. -/

inductive ClientErr
  | notFound
  | connectionFailure
  | other (msg : String)
  deriving DecidableEq

/-- The OpenSearch client delete call: raises NotFoundError when no
document has the id (the source handles exactly that error), removes the
document otherwise. -/
def osClientDelete (conn : Bool) (docs : List OSDoc) (docId : String) :
    Except ClientErr (List OSDoc) :=
  if !conn then .error .connectionFailure
  else if docs.any (fun d => d.id == docId) then .ok (docs.filter (fun d => d.id != docId))
  else .error .notFound

/-- OpenSearchStore.delete_document: NotFoundError gives false, and the
generic exception handler turns every other client error into false as
well; the call itself never raises. -/
def OpenSearchStore.delete_document (conn : Bool) (docs : List OSDoc) (docId : String) :
    Except ClientErr (List OSDoc × Bool) :=
  match osClientDelete conn docs docId with
  | .ok docs2 => .ok (docs2, true)
  | .error .notFound => .ok (docs, false)
  | .error _ => .ok (docs, false)

/-- The Qdrant client delete call: point deletion is idempotent and is
acknowledged even when no point has the id, so a missing id raises no
error (the source has no not-found branch, matching the client API). -/
def qdrantClientDelete (conn : Bool) (points : List QPoint) (docId : String) :
    Except ClientErr (List QPoint) :=
  if conn then .ok (points.filter (fun p => p.id != docId))
  else .error .connectionFailure

/-- QdrantStore.delete_document: true on an acknowledged delete, and the
generic exception handler turns any client error into false. -/
def QdrantStore.delete_document (conn : Bool) (points : List QPoint) (docId : String) :
    Except ClientErr (List QPoint × Bool) :=
  match qdrantClientDelete conn points docId with
  | .ok ps => .ok (ps, true)
  | .error _ => .ok (points, false)

structure OSStats where
  name : String
  document_count : Nat
  size_in_bytes : Nat
  primary_shards : Nat
  deriving DecidableEq

/-- OpenSearchStore.get_index_stats: reads the index stats, and on any
error returns the default zero stats instead of raising. -/
def OpenSearchStore.get_index_stats (conn : Bool) (indexName : String) (docs : List OSDoc)
    (sizeBytes : Nat) : Except ClientErr OSStats :=
  if conn then
    .ok { name := indexName
          document_count := docs.length
          size_in_bytes := sizeBytes
          primary_shards := docs.length }
  else
    .ok { name := indexName, document_count := 0, size_in_bytes := 0, primary_shards := 0 }

/-- OpenSearchStore.search as a fallible operation: its exception handler
re-raises every error. -/
def OpenSearchStore.searchOp (conn : Bool) (o : Oracles) (docs : List OSDoc) (q : OSQuery)
    (useHybrid : Bool) : Except ClientErr (List OSResult) :=
  if conn then .ok (OpenSearchStore.search o docs q useHybrid)
  else .error .connectionFailure

/-- OpenSearchStore.add_document as a fallible operation: its exception
handler re-raises every error. -/
def OpenSearchStore.addOp (conn : Bool) (o : Oracles) (docs : List OSDoc) (newId : String)
    (text : String) (metadata : Metadata) (organization_id : String)
    (user_id : Option String) (tags : List String) (now : String) :
    Except ClientErr (List OSDoc × String) :=
  if conn then
    .ok (OpenSearchStore.add_document o docs newId text metadata organization_id user_id tags now)
  else .error .connectionFailure

/-! ## Schema creation -/

/-- Outcome of a create-index or create-collection client call. The
alreadyExists outcome is the race where another instance created the
schema between the existence check and the creation call. -/
inductive CreateOutcome
  | ok
  | alreadyExists
  | failed (msg : String)
  deriving DecidableEq

/-- OpenSearchStore._ensure_index: return early when the index exists;
otherwise create it, treating a resource_already_exists_exception as
success and re-raising any other error. The Bool is index existence. -/
def OpenSearchStore.ensure_index (indexExists : Bool) (outcome : CreateOutcome) :
    Except CreateOutcome Bool :=
  if indexExists then .ok true
  else
    match outcome with
    | .ok => .ok true
    | .alreadyExists => .ok true
    | .failed msg => .error (.failed msg)

/-- QdrantStore._ensure_collection: list the collections and return when
the name is present; otherwise create it, and any exception of the
creation call, the concurrent already-exists outcome included, is logged
and re-raised. -/
def QdrantStore.ensure_collection (collections : List String) (name : String)
    (outcome : CreateOutcome) : Except CreateOutcome (List String) :=
  if collections.contains name then .ok collections
  else
    match outcome with
    | .ok => .ok (collections ++ [name])
    | .alreadyExists => .error .alreadyExists
    | .failed msg => .error (.failed msg)

/-! ## RAGEngine (retrieval orchestrator) -/

/-- The bound vector store backend of one engine instance, with its
state: the OpenSearch index or the Qdrant collection. -/
inductive Backend
  | opensearch (docs : List OSDoc)
  | qdrant (points : List QPoint)
  deriving DecidableEq

/-- Search result dict as the engine returns it. The tags key is present
only in hits of the hybrid backend. -/
structure SearchResult where
  id : String
  score : Rat
  text : String
  metadata : Metadata
  tags : Option (List String)
  deriving DecidableEq

def osToUnified (r : OSResult) : SearchResult :=
  { id := r.id, score := r.score, text := r.text, metadata := r.metadata, tags := some r.tags }

def qToUnified (r : QResult) : SearchResult :=
  { id := r.id, score := r.score, text := r.text, metadata := r.metadata, tags := none }

/-- Default score_threshold of QdrantStore.search, used by the engine
since its dispatch passes no threshold. -/
def qdrantDefaultThreshold : Rat := 3 / 10

/-- RAGEngine.search_documents: dispatch on the concrete store type; the
hybrid store receives the tags filter, the dense-only store is called
without the tags argument. -/
def RAGEngine.search_documents (o : Oracles) (b : Backend) (query organization_id : String)
    (user_id : Option String) (tags : List String) (limit : Nat) : List SearchResult :=
  match b with
  | .opensearch docs =>
      (OpenSearchStore.search o docs
          { query := query
            organization_id := organization_id
            user_id := user_id
            tags := tags
            limit := limit }
          true).map osToUnified
  | .qdrant points =>
      (QdrantStore.search o points
          { query := query
            organization_id := organization_id
            user_id := user_id
            limit := limit
            score_threshold := qdrantDefaultThreshold }).map qToUnified

/-- RAGEngine.add_document: dispatch on the concrete store type; the
hybrid store receives the tags, the dense-only store is called without
the tags argument. -/
def RAGEngine.add_document (o : Oracles) (b : Backend) (newId now : String) (text : String)
    (metadata : Metadata) (organization_id : String) (user_id : Option String)
    (tags : List String) : Backend × String :=
  match b with
  | .opensearch docs =>
      let r := OpenSearchStore.add_document o docs newId text metadata organization_id
        user_id tags now
      (.opensearch r.1, r.2)
  | .qdrant points =>
      let r := QdrantStore.add_document o points newId text metadata organization_id user_id
      (.qdrant r.1, r.2)

/-- RAGEngine.delete_document: delegate to the bound store, and the
exception handler turns any error into false. -/
def RAGEngine.delete_document (conn : Bool) (b : Backend) (docId : String) : Backend × Bool :=
  match b with
  | .opensearch docs =>
      match OpenSearchStore.delete_document conn docs docId with
      | .ok r => (.opensearch r.1, r.2)
      | .error _ => (.opensearch docs, false)
  | .qdrant points =>
      match QdrantStore.delete_document conn points docId with
      | .ok r => (.qdrant r.1, r.2)
      | .error _ => (.qdrant points, false)

/-! ## Context builder and generation -/

/-- Fixed two-decimal rendering of a nonnegative score, the observable
shape of the format specifier .2f on the scores at hand. -/
def fmt2 (q : Rat) : String :=
  let n : Nat := (q * 100 + 1 / 2).floor.toNat
  let whole := n / 100
  let frac := n % 100
  toString whole ++ "." ++ (if frac < 10 then "0" else "") ++ toString frac

/-- One context block: the index label, the two-decimal score, a line
break, and the document text. -/
def contextBlock (i : Nat) (score : Rat) (text : String) : String :=
  "[문서 " ++ toString i ++ "] (유사도: " ++ fmt2 score ++ ")\n" ++ text

/-- The accumulation loop of RAGEngine._build_context: one block per
result, numbered from the given start index. -/
def buildContextParts (i : Nat) : List SearchResult → List String
  | [] => []
  | r :: rs => contextBlock i r.score r.text :: buildContextParts (i + 1) rs

/-- RAGEngine._build_context: blocks numbered from 1 in input order,
joined by a blank line. -/
def RAGEngine.build_context (results : List SearchResult) : String :=
  String.intercalate "\n\n" (buildContextParts 1 results)

/-- Chat message of the generation provider. -/
structure Msg where
  role : String
  content : String
  deriving DecidableEq

/-- Source record of a generate_answer response. -/
structure SourceRec where
  text : String
  score : Rat
  metadata : Metadata
  deriving DecidableEq

/-- Response of RAGEngine.generate_answer. -/
structure GenResult where
  answer : String
  sources : List SourceRec
  model : String
  deriving DecidableEq

/-- The grounded system prompt of RAGEngine._get_system_prompt. -/
def systemPrompt : String :=
  "당신은 협업 플랫폼 Cowexa의 AI 어시스턴트입니다.\n\n역할:\n- 사용자의 질문에 정확하고 친절하게 답변합니다\n- 제공된 문서(컨텍스트)를 바탕으로 답변합니다\n- 문서에 없는 내용은 추측하지 않습니다\n\n답변 지침:\n1. 제공된 문서의 내용을 우선적으로 사용하세요\n2. 문서에 정보가 없으면 \"제공된 문서에서 관련 정보를 찾을 수 없습니다\"라고 답변하세요\n3. 답변은 명확하고 간결하게 작성하세요\n4. 필요시 문서 번호를 인용하여 출처를 명시하세요 (예: [문서 1]에 따르면...)\n\n주의사항:\n- 개인정보나 민감한 정보는 신중하게 다루세요\n- 확실하지 않은 내용은 추측하지 마세요\n- 항상 친절하고 전문적인 톤을 유지하세요\n"

/-- RAGEngine._build_user_prompt: the evidence block and the query. -/
def RAGEngine.build_user_prompt (context query : String) : String :=
  "다음은 참고할 문서들입니다:\n\n" ++ context ++ "\n\n질문: " ++ query
    ++ "\n\n위 문서들을 참고하여 질문에 답변해주세요."

/-- The degraded-mode system prompt of RAGEngine._generate_without_context:
answer the question, disclose that no related document was found, and
offer general information only. -/
def noContextSystemPrompt : String :=
  "당신은 협업 플랫폼 Cowexa의 AI 어시스턴트입니다.\n\n사용자의 질문에 답변하되, 관련 문서를 찾을 수 없었음을 알려주세요.\n일반적인 정보는 제공할 수 있지만, 회사 내부 정보나 특정 프로젝트 정보는 문서가 필요합니다."

/-- The degraded-mode message pair sent to the generation provider. -/
def noContextMessages (query : String) : List Msg :=
  [{ role := "system", content := noContextSystemPrompt },
   { role := "user", content := query }]

/-- RAGEngine._generate_without_context: one provider call on the
degraded message pair; sources is the empty list. -/
def RAGEngine.generate_without_context (llm : List Msg → String) (llmModel query : String) :
    GenResult :=
  { answer := llm (noContextMessages query), sources := [], model := llmModel }

/-- RAGEngine.generate_answer: retrieve top context_limit results; on an
empty result set fall back to degraded generation, otherwise build the
context, assemble the system and user messages, call the provider once,
and return the answer with the mapped source records. -/
def RAGEngine.generate_answer (o : Oracles) (b : Backend) (llm : List Msg → String)
    (llmModel query organization_id : String) (user_id : Option String)
    (context_limit : Nat) : GenResult :=
  let search_results := RAGEngine.search_documents o b query organization_id user_id []
    context_limit
  if search_results.isEmpty then
    RAGEngine.generate_without_context llm llmModel query
  else
    let context := RAGEngine.build_context search_results
    let messages : List Msg :=
      [{ role := "system", content := systemPrompt },
       { role := "user", content := RAGEngine.build_user_prompt context query }]
    { answer := llm messages
      sources := search_results.map (fun r => { text := r.text, score := r.score, metadata := r.metadata })
      model := llmModel }

/-! ## Structural lemmas about the two search pipelines -/

theorem osFilterPass_org {q : OSQuery} {d : OSDoc} (h : osFilterPass q d = true) :
    d.organization_id = q.organization_id := by
  simp only [osFilterPass, Bool.and_eq_true, beq_iff_eq] at h
  exact h.1.1

theorem osFilterPass_tags {q : OSQuery} {d : OSDoc} (h : osFilterPass q d = true)
    (hne : q.tags.isEmpty = false) : d.tags.any (fun t => q.tags.contains t) = true := by
  simp only [osFilterPass, Bool.and_eq_true] at h
  have := h.2
  rwa [hne, if_neg Bool.false_ne_true] at this

theorem qdrantFilterPass_org {q : QQuery} {p : QPoint} (h : qdrantFilterPass q p = true) :
    mlookup "organization_id" p.payload = some q.organization_id := by
  simp only [qdrantFilterPass, Bool.and_eq_true, beq_iff_eq] at h
  exact h.1

/-- Every hit of OpenSearchStore.search is built from a stored document
that passes every mandatory filter clause. -/
theorem osSearch_provenance {o : Oracles} {docs : List OSDoc} {q : OSQuery} {useHybrid : Bool}
    {r : OSResult} (hr : r ∈ OpenSearchStore.search o docs q useHybrid) :
    ∃ d ∈ docs, osFilterPass q d = true ∧ r.id = d.id ∧ r.text = d.text ∧
      r.metadata = d.metadata ∧ r.tags = d.tags := by
  have key : ∀ (matched : List OSDoc) (f k : OSDoc → Rat),
      r ∈ ((sortDescBy k matched).take q.limit).map (fun d => osHitToResult d (f d)) →
      ∃ d ∈ matched, r = osHitToResult d (f d) := by
    intro matched f k hm
    rcases List.mem_map.mp hm with ⟨d, hd, hfd⟩
    exact ⟨d, (mem_sortDescBy k d matched).mp (mem_of_mem_take hd), hfd.symm⟩
  unfold OpenSearchStore.search at hr
  split at hr
  · rcases key _ _ _ hr with ⟨d, hd, rfl⟩
    have hd2 : d ∈ docs ∧ osFilterPass q d = true ∧
        osShould o q (osKnnPool o docs q (q.limit * 2)) d = true := by
      simpa [osHybridMatched] using hd
    exact ⟨d, hd2.1, hd2.2.1, rfl, rfl, rfl, rfl⟩
  · rcases key _ _ _ hr with ⟨d, hd, rfl⟩
    have hd2 : d ∈ docs ∧ osFilterPass q d = true ∧
        osInPool (osKnnPool o docs q q.limit) d = true := by
      simpa [osVectorMatched] using hd
    exact ⟨d, hd2.1, hd2.2.1, rfl, rfl, rfl, rfl⟩

/-- Every hit of QdrantStore.search is built from a stored point that
passes the tenant filter and reaches the score threshold. -/
theorem qdrantSearch_provenance {o : Oracles} {points : List QPoint} {q : QQuery}
    {r : QResult} (hr : r ∈ QdrantStore.search o points q) :
    ∃ p ∈ points, qdrantFilterPass q p = true ∧
      q.score_threshold ≤ qVecSim o q p ∧ r = qdrantPointToResult (qVecSim o q p) p := by
  unfold QdrantStore.search at hr
  rcases List.mem_map.mp hr with ⟨p, hp, hfp⟩
  have hp2 := (mem_sortDescBy _ _ _).mp (mem_of_mem_take hp)
  have hp3 : p ∈ points ∧ qdrantFilterPass q p = true ∧ q.score_threshold ≤ qVecSim o q p := by
    simpa [qdrantPassing] using hp2
  exact ⟨p, hp3.1, hp3.2.1, hp3.2.2, hfp.symm⟩

/-! ## C1 -/

/-- C1: Tenant isolation. On either backend, every returned result is
built from a document stored with the organization_id of the query: on
the hybrid backend the organization_id term clause is in the mandatory
must list, and on the dense-only backend the organization_id field
condition is in the mandatory filter, so a document stored under any
other organization is never returned, whatever the lexical or vector
oracles score it. -/
theorem c1_tenant_isolation (o : Oracles) (docs : List OSDoc) (q : OSQuery) (useHybrid : Bool)
    (points : List QPoint) (qq : QQuery) :
    (∀ r ∈ OpenSearchStore.search o docs q useHybrid,
      ∃ d ∈ docs, d.organization_id = q.organization_id ∧ r.id = d.id ∧ r.text = d.text) ∧
    (∀ r ∈ QdrantStore.search o points qq,
      ∃ p ∈ points, mlookup "organization_id" p.payload = some qq.organization_id ∧
        r.id = p.id ∧ r.text = (mlookup "text" p.payload).getD "") := by
  constructor
  · intro r hr
    rcases osSearch_provenance hr with ⟨d, hmem, hf, hid, htext, -, -⟩
    exact ⟨d, hmem, osFilterPass_org hf, hid, htext⟩
  · intro r hr
    rcases qdrantSearch_provenance hr with ⟨p, hmem, hf, -, rfl⟩
    exact ⟨p, hmem, qdrantFilterPass_org hf, rfl, rfl⟩

def c1oracle : Oracles :=
  { embed := fun _ => [1]
    cosSim := fun _ _ => 1
    lexScore := fun _ _ => some 1 }

def c1doc : OSDoc :=
  { id := "d1", text := "Project A deadline is Dec 31 2024", embedding := [1]
    organization_id := "org_1", user_id := none, tags := [], metadata := [], created_at := "t0" }

def c1query : OSQuery :=
  { query := "deadline", organization_id := "org_1", user_id := none, tags := [], limit := 5 }

def c1point : QPoint :=
  { id := "p1", vector := [1], payload := qdrantPayload "hello" [] "org_1" none }

def c1qq : QQuery :=
  { query := "hi", organization_id := "org_1", user_id := none, limit := 5
    score_threshold := 3 / 10 }

/-- C1 witness: the isolation theorem applied to one concrete hit of
each backend. -/
theorem c1_tenant_isolation_witness :
    (∃ d ∈ [c1doc], d.organization_id = "org_1" ∧ (osHitToResult c1doc 2).id = d.id ∧
      (osHitToResult c1doc 2).text = d.text) ∧
    (∃ p ∈ [c1point], mlookup "organization_id" p.payload = some "org_1" ∧
      (qdrantPointToResult 1 c1point).id = p.id ∧
      (qdrantPointToResult 1 c1point).text = (mlookup "text" p.payload).getD "") :=
  ⟨(c1_tenant_isolation c1oracle [c1doc] c1query true [c1point] c1qq).1
      (osHitToResult c1doc 2) (by with_unfolding_all decide),
   (c1_tenant_isolation c1oracle [c1doc] c1query true [c1point] c1qq).2
      (qdrantPointToResult 1 c1point) (by with_unfolding_all decide)⟩

/-! ## C2 -/

/-- C2: Hybrid union semantics. For any stored document that passes the
mandatory tenant, user and tag filters, a lexical keyword match alone
satisfies the should clauses (minimum_should_match 1), whatever the
vector oracle scores the document: the document matches the hybrid
query, the knn candidate pool is bounded by limit * 2, and whenever the
matched set fits in the limit cutoff the document is returned. -/
theorem c2_hybrid_union (o : Oracles) (docs : List OSDoc) (q : OSQuery) (d : OSDoc)
    (hmem : d ∈ docs) (hfilt : osFilterPass q d = true)
    (hlex : (o.lexScore q.query d.text).isSome = true) :
    d ∈ osHybridMatched o docs q ∧
    (osKnnPool o docs q (q.limit * 2)).length ≤ q.limit * 2 ∧
    ((osHybridMatched o docs q).length ≤ q.limit →
      ∃ r ∈ OpenSearchStore.search o docs q true, r.id = d.id ∧ r.text = d.text) := by
  have hshould : osShould o q (osKnnPool o docs q (q.limit * 2)) d = true := by
    simp [osShould, hlex]
  have hmatched : d ∈ osHybridMatched o docs q := by
    simp [osHybridMatched, List.mem_filter, hmem, hfilt, hshould]
  refine ⟨hmatched, ?_, ?_⟩
  · simp only [osKnnPool]
    exact List.length_take_le _ _
  · intro hlen
    have hsortlen :
        (sortDescBy (osScore o q (osKnnPool o docs q (q.limit * 2)))
          (osHybridMatched o docs q)).length ≤ q.limit := by
      rwa [length_sortDescBy]
    refine ⟨osHitToResult d (osScore o q (osKnnPool o docs q (q.limit * 2)) d), ?_, rfl, rfl⟩
    unfold OpenSearchStore.search
    rw [if_pos rfl, take_of_length_le hsortlen]
    exact List.mem_map_of_mem _ ((mem_sortDescBy _ _ _).mpr hmatched)

/-- Oracle with a lexical hit but zero vector similarity everywhere:
keyword match with an embedding far from the query vector. -/
def c2oracle : Oracles :=
  { embed := fun _ => [0]
    cosSim := fun _ _ => 0
    lexScore := fun _ _ => some 1 }

def c2doc : OSDoc :=
  { id := "d2", text := "alpha keyword", embedding := [0]
    organization_id := "org_1", user_id := none, tags := [], metadata := [], created_at := "t0" }

def c2query : OSQuery :=
  { query := "keyword", organization_id := "org_1", user_id := none, tags := [], limit := 5 }

/-- C2 witness: the union theorem applied to a concrete keyword-only
match whose vector similarity is zero. -/
theorem c2_hybrid_union_witness :
    c2doc ∈ osHybridMatched c2oracle [c2doc] c2query ∧
    (osKnnPool c2oracle [c2doc] c2query 10).length ≤ 10 ∧
    (∃ r ∈ OpenSearchStore.search c2oracle [c2doc] c2query true,
      r.id = "d2" ∧ r.text = "alpha keyword") :=
  have h := c2_hybrid_union c2oracle [c2doc] c2query c2doc
    (by with_unfolding_all decide) (by with_unfolding_all decide) (by with_unfolding_all decide)
  ⟨h.1, h.2.1, h.2.2 (by with_unfolding_all decide)⟩

/-! ## C3 -/

/-- C3: Dense threshold cutoff. Every dense-only search returns at most
limit results, and every returned result has score at least
score_threshold: points under the threshold are filtered out before the
limit cutoff is taken. -/
theorem c3_dense_threshold (o : Oracles) (points : List QPoint) (q : QQuery) :
    (QdrantStore.search o points q).length ≤ q.limit ∧
    ∀ r ∈ QdrantStore.search o points q, q.score_threshold ≤ r.score := by
  constructor
  · unfold QdrantStore.search
    rw [List.length_map]
    exact List.length_take_le _ _
  · intro r hr
    rcases qdrantSearch_provenance hr with ⟨p, -, -, hth, rfl⟩
    simpa [qdrantPointToResult] using hth

def c3oracle : Oracles :=
  { embed := fun _ => [1]
    cosSim := fun _ _ => 1
    lexScore := fun _ _ => none }

def c3point : QPoint :=
  { id := "p3", vector := [1], payload := qdrantPayload "hello" [] "org_1" none }

def c3query : QQuery :=
  { query := "hi", organization_id := "org_1", user_id := none, limit := 5
    score_threshold := 3 / 10 }

/-- C3 witness: the threshold theorem applied to a concrete search with
one point of similarity 1 against threshold 3/10. -/
theorem c3_dense_threshold_witness :
    (QdrantStore.search c3oracle [c3point] c3query).length ≤ 5 ∧
    (3 : Rat) / 10 ≤ (qdrantPointToResult 1 c3point).score :=
  ⟨(c3_dense_threshold c3oracle [c3point] c3query).1,
   (c3_dense_threshold c3oracle [c3point] c3query).2 (qdrantPointToResult 1 c3point)
     (by with_unfolding_all decide)⟩

/-! ## C4 -/

/-- C4 counterexample: on the dense-only backend the client acknowledges
deletion of a missing id, so delete_document returns true, not false,
for an id that identifies no stored document. -/
theorem c4_counterexample :
    QdrantStore.delete_document true ([] : List QPoint) "missing" =
      Except.ok (([] : List QPoint), true) := rfl

/-- C4 amended: on the hybrid backend delete_document returns false, not
an error, for a missing id and true exactly when a stored document was
removed; on the dense-only backend the idempotent client delete makes
delete_document return true whether or not the id exists. -/
theorem c4_delete_missing_amended (docsM docsP : List OSDoc) (points : List QPoint)
    (docIdM docIdP : String)
    (hmiss : docsM.any (fun d => d.id == docIdM) = false)
    (hhit : docsP.any (fun d => d.id == docIdP) = true)
    (hpmiss : points.all (fun p => p.id != docIdM) = true) :
    OpenSearchStore.delete_document true docsM docIdM = .ok (docsM, false) ∧
    OpenSearchStore.delete_document true docsP docIdP =
      .ok (docsP.filter (fun d => d.id != docIdP), true) ∧
    QdrantStore.delete_document true points docIdM = .ok (points, true) := by
  refine ⟨?_, ?_, ?_⟩
  · unfold OpenSearchStore.delete_document osClientDelete
    simp [hmiss]
  · unfold OpenSearchStore.delete_document osClientDelete
    simp [hhit]
  · unfold QdrantStore.delete_document qdrantClientDelete
    have hkeep : points.filter (fun p => p.id != docIdM) = points :=
      List.filter_eq_self.mpr (fun p hp => by
        have := List.all_eq_true.mp hpmiss p hp
        simpa using this)
    simp [hkeep]

def c4doc : OSDoc :=
  { id := "a", text := "kept", embedding := [1]
    organization_id := "org_1", user_id := none, tags := [], metadata := [], created_at := "t0" }

def c4point : QPoint :=
  { id := "a", vector := [1], payload := qdrantPayload "kept" [] "org_1" none }

/-- C4 witness: the amended theorem applied to a store holding only id a,
deleting the missing id b on both backends and the present id a on the
hybrid backend. -/
theorem c4_delete_missing_amended_witness :
    OpenSearchStore.delete_document true [c4doc] "b" = Except.ok ([c4doc], false) ∧
    OpenSearchStore.delete_document true [c4doc] "a" =
      Except.ok ([c4doc].filter (fun d => d.id != "a"), true) ∧
    QdrantStore.delete_document true [c4point] "b" = Except.ok ([c4point], true) :=
  c4_delete_missing_amended [c4doc] [c4doc] [c4point] "b" "a"
    (by with_unfolding_all decide) (by with_unfolding_all decide)
    (by with_unfolding_all decide)

/-! ## C5 -/

def c5doc : OSDoc :=
  { id := "d5", text := "kept", embedding := [1]
    organization_id := "org_1", user_id := none, tags := [], metadata := [], created_at := "t0" }

/-- C5 counterexample: with the connection down, delete_document returns
ok false instead of raising, the orchestrator delete likewise returns
false, and get_index_stats returns the default zero stats instead of
raising, against the claim that such errors propagate to the caller. -/
theorem c5_counterexample :
    OpenSearchStore.delete_document false [c5doc] "d5" = Except.ok ([c5doc], false) ∧
    OpenSearchStore.get_index_stats false "ai_documents" [c5doc] 100 =
      Except.ok { name := "ai_documents", document_count := 0, size_in_bytes := 0
                  primary_shards := 0 } ∧
    RAGEngine.delete_document false (Backend.opensearch [c5doc]) "d5" =
      (Backend.opensearch [c5doc], false) :=
  ⟨rfl, rfl, rfl⟩

/-- C5 amended: errors during search and add_document propagate
unchanged (a connection failure surfaces as the raised error), but
delete_document at the store and orchestrator layers converts any error
into a false return, and get_index_stats converts any error into the
default zero stats; neither of those two calls ever raises. -/
theorem c5_error_propagation_amended (o : Oracles) (docs : List OSDoc) (q : OSQuery)
    (useHybrid : Bool) (docId newId text now indexName : String) (metadata : Metadata)
    (organization_id : String) (user_id : Option String) (tags : List String)
    (points : List QPoint) (sizeBytes : Nat) :
    OpenSearchStore.searchOp false o docs q useHybrid = .error .connectionFailure ∧
    OpenSearchStore.addOp false o docs newId text metadata organization_id user_id tags now =
      .error .connectionFailure ∧
    OpenSearchStore.delete_document false docs docId = .ok (docs, false) ∧
    QdrantStore.delete_document false points docId = .ok (points, false) ∧
    OpenSearchStore.get_index_stats false indexName docs sizeBytes =
      .ok { name := indexName, document_count := 0, size_in_bytes := 0, primary_shards := 0 } ∧
    RAGEngine.delete_document false (.opensearch docs) docId = (.opensearch docs, false) :=
  ⟨rfl, rfl, rfl, rfl, rfl, rfl⟩

/-! ## C6 -/

/-- C6: Degraded mode. When retrieval returns no result, generate_answer
returns successfully with the answer of one provider call on the
degraded message pair, an empty sources list, and the model identifier;
the message pair is a system message holding the degraded prompt (answer
from general knowledge, disclose that no related document was found) and
a user message holding the query. -/
theorem c6_degraded_mode (o : Oracles) (b : Backend) (llm : List Msg → String)
    (llmModel query organization_id : String) (user_id : Option String) (context_limit : Nat)
    (hempty : RAGEngine.search_documents o b query organization_id user_id [] context_limit = []) :
    RAGEngine.generate_answer o b llm llmModel query organization_id user_id context_limit =
      { answer := llm (noContextMessages query), sources := [], model := llmModel } ∧
    (noContextMessages query).map Msg.role = ["system", "user"] ∧
    (noContextMessages query).map Msg.content = [noContextSystemPrompt, query] := by
  refine ⟨?_, rfl, rfl⟩
  simp [RAGEngine.generate_answer, hempty, RAGEngine.generate_without_context]

def c6oracle : Oracles :=
  { embed := fun _ => [1]
    cosSim := fun _ _ => 1
    lexScore := fun _ _ => none }

def c6llm : List Msg → String := fun _ => "관련 문서를 찾을 수 없었습니다."

/-- C6 witness: the degraded-mode theorem applied to an empty hybrid
store, where every retrieval is empty. -/
theorem c6_degraded_mode_witness :
    RAGEngine.generate_answer c6oracle (Backend.opensearch []) c6llm "gpt-4o" "질문" "org_1"
        none 5 =
      { answer := c6llm (noContextMessages "질문"), sources := [], model := "gpt-4o" } ∧
    (noContextMessages "질문").map Msg.role = ["system", "user"] ∧
    (noContextMessages "질문").map Msg.content = [noContextSystemPrompt, "질문"] :=
  c6_degraded_mode c6oracle (Backend.opensearch []) c6llm "gpt-4o" "질문" "org_1" none 5
    (by with_unfolding_all decide)

/-! ## C7 -/

theorem buildContextParts_eq_enumFrom (i : Nat) (rs : List SearchResult) :
    buildContextParts i rs =
      (List.enumFrom i rs).map (fun p => contextBlock p.1 p.2.score p.2.text) := by
  induction rs generalizing i with
  | nil => rfl
  | cons r rs ih => simp [buildContextParts, List.enumFrom, ih]

theorem enumFrom_map_snd {α : Type} : ∀ (n : Nat) (l : List α),
    (List.enumFrom n l).map Prod.snd = l
  | _, [] => rfl
  | n, _ :: l => by simp [List.enumFrom, enumFrom_map_snd (n + 1) l]

/-- C7 counterexample: the context block labels are the literal Korean
strings of the source, not the label "[Doc i] (score: s)" of the claim;
at one concrete result the built context differs from the claimed form
and equals the Korean form. -/
theorem c7_counterexample :
    RAGEngine.build_context
        [{ id := "d7", score := 92 / 100, text := "hello", metadata := [], tags := none }] ≠
      "[Doc 1] (score: 0.92)\nhello" ∧
    RAGEngine.build_context
        [{ id := "d7", score := 92 / 100, text := "hello", metadata := [], tags := none }] =
      "[문서 1] (유사도: 0.92)\nhello" := by
  constructor
  · with_unfolding_all decide
  · with_unfolding_all rfl

/-- C7 amended: the context builder is a pure function of the input
list: it emits one block per result in input order, numbered from 1,
each of the literal form made of the label, the score formatted to two
decimals, a line break and the text, joined by a blank line; the
enumeration preserves the input order (no re-sorting). -/
theorem c7_context_builder_amended (results : List SearchResult) :
    RAGEngine.build_context results =
      String.intercalate "\n\n" ((List.enumFrom 1 results).map
        (fun p => "[문서 " ++ toString p.1 ++ "] (유사도: " ++ fmt2 p.2.score ++ ")\n"
          ++ p.2.text)) ∧
    (List.enumFrom 1 results).map Prod.snd = results := by
  constructor
  · unfold RAGEngine.build_context
    rw [buildContextParts_eq_enumFrom]
    rfl
  · exact enumFrom_map_snd 1 results

/-! ## C8 -/

/-- C8: Tag capability gap. On the dense-only backend the orchestrator
drops the tags argument: add_document and search_documents with any tags
are the same calls as with no tags (and return normally); on the hybrid
backend a nonempty tags filter is mandatory: every returned result comes
from a document sharing a tag with the filter. -/
theorem c8_tags_dropped (o : Oracles) (points : List QPoint)
    (newId now text query organization_id : String) (metadata : Metadata)
    (user_id : Option String) (tags : List String) (limit : Nat)
    (docs : List OSDoc) (qtags : List String) (hne : qtags.isEmpty = false) :
    RAGEngine.add_document o (.qdrant points) newId now text metadata organization_id
        user_id tags =
      RAGEngine.add_document o (.qdrant points) newId now text metadata organization_id
        user_id [] ∧
    RAGEngine.search_documents o (.qdrant points) query organization_id user_id tags limit =
      RAGEngine.search_documents o (.qdrant points) query organization_id user_id [] limit ∧
    (∀ r ∈ RAGEngine.search_documents o (.opensearch docs) query organization_id user_id
        qtags limit,
      ∃ d ∈ docs, r.id = d.id ∧ d.tags.any (fun t => qtags.contains t) = true) := by
  refine ⟨rfl, rfl, ?_⟩
  intro r hr
  rcases List.mem_map.mp hr with ⟨r0, hr0, rfl⟩
  rcases osSearch_provenance hr0 with ⟨d, hmem, hf, hid, -, -, -⟩
  exact ⟨d, hmem, hid, osFilterPass_tags hf hne⟩

def c8oracle : Oracles :=
  { embed := fun _ => [1]
    cosSim := fun _ _ => 1
    lexScore := fun _ _ => some 1 }

def c8doc : OSDoc :=
  { id := "d8", text := "meeting minutes", embedding := [1]
    organization_id := "org_1", user_id := none, tags := ["projectA"], metadata := []
    created_at := "t0" }

/-- C8 witness: the capability-gap theorem applied to a dense-only call
with a nonempty tags argument and to one concrete tagged hit of the
hybrid backend. -/
theorem c8_tags_dropped_witness :
    RAGEngine.add_document c8oracle (.qdrant []) "p1" "t0" "body" [] "org_1" none ["tag"] =
      RAGEngine.add_document c8oracle (.qdrant []) "p1" "t0" "body" [] "org_1" none [] ∧
    RAGEngine.search_documents c8oracle (.qdrant []) "question" "org_1" none ["tag"] 5 =
      RAGEngine.search_documents c8oracle (.qdrant []) "question" "org_1" none [] 5 ∧
    (∃ d ∈ [c8doc], (osToUnified (osHitToResult c8doc 2)).id = d.id ∧
      d.tags.any (fun t => (["projectA"] : List String).contains t) = true) :=
  have h := c8_tags_dropped c8oracle [] "p1" "t0" "body" "question" "org_1" [] none ["tag"] 5
    [c8doc] ["projectA"] (by decide)
  ⟨h.1, h.2.1, h.2.2 (osToUnified (osHitToResult c8doc 2)) (by with_unfolding_all decide)⟩

/-! ## C9 -/

/-- C9 counterexample: on the dense-only backend a concurrent
already-exists outcome during collection creation is re-raised, not
treated as success. -/
theorem c9_counterexample :
    QdrantStore.ensure_collection [] "documents" CreateOutcome.alreadyExists =
      Except.error CreateOutcome.alreadyExists := rfl

/-- C9 amended: schema creation is idempotent on both backends — a call
against an existing schema returns without error, whatever the creation
outcome would be, and creates nothing new — and the concurrent
already-exists outcome is treated as success on the hybrid backend but
re-raised on the dense-only backend. -/
theorem c9_idempotent_schema_amended (outcome : CreateOutcome) (collections : List String)
    (name : String) (hmem : collections.contains name = true) :
    OpenSearchStore.ensure_index true outcome = .ok true ∧
    QdrantStore.ensure_collection collections name outcome = .ok collections ∧
    OpenSearchStore.ensure_index false .alreadyExists = .ok true := by
  refine ⟨rfl, ?_, rfl⟩
  unfold QdrantStore.ensure_collection
  rw [if_pos hmem]

/-- C9 witness: a second ensure call against an existing schema on each
backend, under an outcome that would fail creation, and the tolerated
hybrid creation race. -/
theorem c9_idempotent_schema_amended_witness :
    OpenSearchStore.ensure_index true (CreateOutcome.failed "boom") = .ok true ∧
    QdrantStore.ensure_collection ["documents"] "documents" (CreateOutcome.failed "boom") =
      .ok ["documents"] ∧
    OpenSearchStore.ensure_index false .alreadyExists = .ok true :=
  c9_idempotent_schema_amended (.failed "boom") ["documents"] "documents" (by decide)

/-! ## C10 -/

/-- C10: Payload split of the dense-only search results. The returned
metadata never holds the keys text, organization_id or user_id (they are
stripped from the stored payload), and the document text is surfaced in
the text field of the result, read from the payload. -/
theorem c10_payload_split (o : Oracles) (points : List QPoint) (q : QQuery) :
    ∀ r ∈ QdrantStore.search o points q,
      (∀ kv ∈ r.metadata, kv.1 ≠ "text" ∧ kv.1 ≠ "organization_id" ∧ kv.1 ≠ "user_id") ∧
      ∃ p ∈ points, r.id = p.id ∧ r.text = (mlookup "text" p.payload).getD "" := by
  intro r hr
  rcases qdrantSearch_provenance hr with ⟨p, hmem, -, -, rfl⟩
  constructor
  · intro kv hkv
    have hkv2 : kv ∈ List.filter
        (fun kv => !(kv.1 == "text" || kv.1 == "organization_id" || kv.1 == "user_id"))
        p.payload := hkv
    have h2 := List.of_mem_filter hkv2
    simp only [Bool.not_eq_true', Bool.or_eq_false_iff, beq_eq_false_iff_ne] at h2
    exact ⟨h2.1.1, h2.1.2, h2.2⟩
  · exact ⟨p, hmem, rfl, rfl⟩

def c10oracle : Oracles :=
  { embed := fun _ => [1]
    cosSim := fun _ _ => 1
    lexScore := fun _ _ => none }

/-- A point whose caller metadata even tries to carry its own text key;
the payload construction shadows it and the search strips it. -/
def c10point : QPoint :=
  { id := "p10", vector := [1]
    payload := qdrantPayload "body" [("title", "projectA"), ("text", "shadowed")] "org_1"
      (some "u1") }

def c10query : QQuery :=
  { query := "question", organization_id := "org_1", user_id := some "u1", limit := 5
    score_threshold := 3 / 10 }

/-- C10 witness: the payload-split theorem applied to one concrete hit
whose stored payload holds all three tenant keys. -/
theorem c10_payload_split_witness :
    (∀ kv ∈ (qdrantPointToResult 1 c10point).metadata,
      kv.1 ≠ "text" ∧ kv.1 ≠ "organization_id" ∧ kv.1 ≠ "user_id") ∧
    ∃ p ∈ [c10point], (qdrantPointToResult 1 c10point).id = p.id ∧
      (qdrantPointToResult 1 c10point).text = (mlookup "text" p.payload).getD "" :=
  c10_payload_split c10oracle [c10point] c10query (qdrantPointToResult 1 c10point)
    (by with_unfolding_all decide)

end Rag
